import Mathlib

/-!
Verification of the remote-state reconciliation engine of the
stream-control overlay tool (src/overlay.py, class ControlWindow).

The definitions below are a shallow embedding of the Python methods into
pure Lean functions over an explicit state record.  JSON dictionaries
become structures; `requests` calls become a `FetchResult` argument
(either a decoded payload or an exception); Qt combo boxes become lists
of items plus a current index or current text; `QTimer.singleShot`
callbacks are deferred to the event loop in the source, so they are
modelled as separate state transitions and are never run inside the
scheduling method.  The Qt signal `currentTextChanged`, which the source
connects to `on_match_selection_changed`, fires synchronously inside
`setCurrentIndex` whenever the current text actually changes; this is
modelled in `setCurrentIndexAuto`.
-/

namespace StreamControl

/-- A JSON scalar value, used where the source passes raw payload fields
through (for example the robot elo, which is echoed verbatim by
`get_robot_data_by_name` for a known robot but replaced by the string
N/A for an unknown one). -/
inductive JsonVal where
  | jnull
  | jnum (n : Int)
  | jstr (v : String)
  deriving DecidableEq

/-- A tournament entity as decoded from the tournaments endpoint. -/
structure Tournament where
  id : Nat
  name : String
  event_organizer : String
  location : String
  deriving DecidableEq

/-- A robot entity as decoded from the robots endpoint.  `weight_class`
is `none` when the key is absent from the payload. -/
structure Robot where
  id : Nat
  bot_name : String
  team_name : String
  elo : JsonVal
  mrca_rank : Option Nat
  weight_class : Option String
  deriving DecidableEq

/-- An operational record as decoded from the operational endpoint.
`clean_image` and `raw_image` are `none` when null or absent. -/
structure OpRecord where
  robot_id : Nat
  tournament_id : Nat
  clean_image : Option String
  raw_image : Option String
  deriving DecidableEq

/-- A pending match as decoded from the matches endpoint. -/
structure Match where
  id : Nat
  robot_1_id : Nat
  robot_2_id : Nat
  deriving DecidableEq

/-- Insert into an insertion-ordered dictionary (Python dict semantics:
an existing key keeps its position and gets the new value, a new key is
appended). -/
def dictInsert {κ α : Type} [BEq κ] (m : List (κ × α)) (k : κ) (v : α) :
    List (κ × α) :=
  if m.any (fun p => p.1 == k) then
    m.map (fun p => if p.1 == k then (k, v) else p)
  else m ++ [(k, v)]

/-- Dictionary lookup (`d[k]` guarded by `k in d`). -/
def dictLookup {κ α : Type} [BEq κ] (m : List (κ × α)) (k : κ) : Option α :=
  (m.find? (fun p => p.1 == k)).map (·.2)

/-- Python `k in d` for a dictionary. -/
def dictContains {κ α : Type} [BEq κ] (m : List (κ × α)) (k : κ) : Bool :=
  m.any (fun p => p.1 == k)

/-- Python truthiness of an optional integer: `None` and `0` are falsy. -/
def optNatTruthy (o : Option Nat) : Bool :=
  match o with
  | some n => n != 0
  | none => false

/-- Python truthiness of an optional string: `None` and the empty string
are falsy. -/
def optStrTruthy (o : Option String) : Bool :=
  o.getD "" != ""

/-- One entry of the auto-mode match dropdown: the display text plus the
per-item data attached with `setItemData`. -/
structure AutoItem where
  text : String
  mdata : Option Match
  deriving DecidableEq

/-- The mutable state of `ControlWindow` that the reconciliation engine
reads and writes.  Combo boxes are modelled by their item lists plus the
current index (auto match dropdown) or current text (editable competitor
dropdowns).  UI-only attributes (colors, timer fields, labels) are
omitted: no modelled method reads them. -/
structure CState where
  tournaments_data : List (String × Tournament)
  robots_data : List (Nat × Robot)
  operational_data : List OpRecord
  matches_data : List Match
  current_tournament_id : Option Nat
  current_tournament_name : Option String
  data_loaded : Bool
  current_match : Option Match
  retained_completed_match : Option Match
  auto_items : List AutoItem
  auto_index : Int
  tournament_items : List String
  left_items : List String
  left_text : String
  right_items : List String
  right_text : String
  last_left_competitor : Option String
  last_right_competitor : Option String
  deriving DecidableEq

/-- Outcome of one HTTP request: either a decoded payload of type `α`,
or an exception (network error, timeout, non-2xx status raised by
`raise_for_status`, or a JSON decode error). -/
inductive FetchResult (α : Type) where
  | ok (payload : α)
  | err
  deriving DecidableEq

/-- Decoded body of the tournaments endpoint.  A missing `success` key
is falsy and is modelled as `false`; a missing `tournaments` key is
modelled as the empty list (both are falsy in the source). -/
structure TournamentsPayload where
  success : Bool
  tournaments : List Tournament
  deriving DecidableEq

/-- Decoded body of the operational endpoint (missing key = `[]`). -/
structure OperationalPayload where
  operational : List OpRecord
  deriving DecidableEq

/-- Decoded body of the matches endpoint (missing key = `[]`). -/
structure MatchesPayload where
  success : Bool
  «matches» : List Match
  deriving DecidableEq

/-- Build `self.tournaments_data` from a tournaments payload
(`tournaments_data[tournament["name"]] = tournament`). -/
def buildTournamentsMap (ts : List Tournament) : List (String × Tournament) :=
  ts.foldl (fun m t => dictInsert m t.name t) []

/-- `ControlWindow.load_tournaments`.  The request and `response.json()`
happen before the dropdown and cache are cleared, so an exception leaves
both untouched (only `data_loaded` is set to `False` in the except
blocks).  A decoded payload first clears the dropdown and the cache and
re-adds the placeholder; it repopulates them only when `success` and the
tournament list are truthy. -/
def load_tournaments (r : FetchResult TournamentsPayload) (s : CState) :
    CState :=
  match r with
  | .err => { s with data_loaded := false }
  | .ok p =>
    if p.success && !p.tournaments.isEmpty then
      { s with
          tournament_items :=
            "-- Select Tournament --" :: p.tournaments.map (·.name),
          tournaments_data := buildTournamentsMap p.tournaments,
          data_loaded := true }
    else
      { s with
          tournament_items := ["-- Select Tournament --"],
          tournaments_data := [],
          data_loaded := false }

/-- `ControlWindow.load_operational_data`: replace the operational cache
only on a decoded payload with a truthy `operational` list; any
exception is caught and printed, leaving the state unchanged. -/
def load_operational_data (r : FetchResult OperationalPayload) (s : CState) :
    CState :=
  match r with
  | .err => s
  | .ok p =>
    if !p.operational.isEmpty then { s with operational_data := p.operational }
    else s

/-- `ControlWindow.load_matches_data`: no-op without a truthy current
tournament id; otherwise a decoded payload with truthy `success` and
`matches` replaces the cache, and every other outcome (exception,
`success` false, empty list) sets `self.matches_data = []`. -/
def load_matches_data (r : FetchResult MatchesPayload) (s : CState) : CState :=
  if !optNatTruthy s.current_tournament_id then s
  else
    match r with
    | .err => { s with matches_data := [] }
    | .ok p =>
      if p.success && !p.«matches».isEmpty then { s with matches_data := p.«matches» }
      else { s with matches_data := [] }

/-- One attempt of the robots fetch: either an exception somewhere in
the request, or a decoded payload whose `robots` list is `[]` when the
key is missing or empty (both falsy in `data.get("robots")`). -/
inductive RobotsAttempt where
  | exn
  | payload (robots : List Robot)
  deriving DecidableEq

/-- Whether a robots attempt succeeds (decoded payload with a truthy
robots list), making `load_robots_data` return early. -/
def attemptOk (a : RobotsAttempt) : Bool :=
  match a with
  | .exn => false
  | .payload rs => !rs.isEmpty

/-- Build `self.robots_data` from a robots list
(`robots_data[robot["id"]] = robot`). -/
def buildRobotsMap (rs : List Robot) : List (Nat × Robot) :=
  rs.foldl (fun m r => dictInsert m r.id r) []

/-- The retry loop of `ControlWindow.load_robots_data`.  On a decoded
payload the cache is first reset to `{}` and repopulated (with a
`return`) only when the robots list is truthy; an exception leaves the
cache as it was and moves to the next attempt; when the final attempt
does not return, the give-up branch sets `self.robots_data = {}`. -/
def robotsLoop : List RobotsAttempt → List (Nat × Robot) → List (Nat × Robot)
  | [], rd => rd
  | [a], _rd =>
    (match a with
     | .exn => []
     | .payload rs => if rs.isEmpty then [] else buildRobotsMap rs)
  | a :: rest, rd =>
    (match a with
     | .exn => robotsLoop rest rd
     | .payload rs =>
       if rs.isEmpty then robotsLoop rest [] else buildRobotsMap rs)

/-- `ControlWindow.load_robots_data` with its three attempts
(`max_retries = 3`). -/
def load_robots_data (a1 a2 a3 : RobotsAttempt) (s : CState) : CState :=
  { s with robots_data := robotsLoop [a1, a2, a3] s.robots_data }

/-- `ControlWindow.clear_competitor_dropdowns`: both editable combo
boxes are cleared and re-seeded with their placeholder item; inserting
the first item into an empty combo box makes it current, so the current
text becomes the placeholder. -/
def clear_competitor_dropdowns (s : CState) : CState :=
  { s with
      left_items := ["-- Select Left Competitor --"],
      left_text := "-- Select Left Competitor --",
      right_items := ["-- Select Right Competitor --"],
      right_text := "-- Select Right Competitor --" }

/-- `ControlWindow.on_tournament_selected`.  The placeholder or an empty
name clears the tournament id and the competitor dropdowns; unresolved
names (not in `tournaments_data`) do the same; a resolved name records
the tournament name and id and calls `save_config`.  The
`QTimer.singleShot` refreshes scheduled here run later on the event loop
and are modelled as separate transitions.  No branch assigns
`current_match` or `retained_completed_match`. -/
def on_tournament_selected (tournament_name : String) (s : CState) : CState :=
  if tournament_name == "-- Select Tournament --" || tournament_name == "" then
    clear_competitor_dropdowns { s with current_tournament_id := none }
  else if !s.data_loaded || s.tournaments_data.isEmpty then s
  else
    match dictLookup s.tournaments_data tournament_name with
    | some t =>
      { s with
          current_tournament_name := some tournament_name,
          current_tournament_id := some t.id }
    | none => clear_competitor_dropdowns { s with current_tournament_id := none }

/-- `ControlWindow.get_robot_name_by_id`: the bot name when the id is a
key of `robots_data`, else `None`. -/
def get_robot_name_by_id (rd : List (Nat × Robot)) (robot_id : Nat) :
    Option String :=
  (dictLookup rd robot_id).map (·.bot_name)

/-- The `get_robot_name_by_id(rid) or f"Robot {rid}"` pattern used when
building dropdown texts (`or` falls through on `None` and on the empty
string). -/
def robotNameOrDefault (rd : List (Nat × Robot)) (robot_id : Nat) : String :=
  match get_robot_name_by_id rd robot_id with
  | some n => if n != "" then n else "Robot " ++ toString robot_id
  | none => "Robot " ++ toString robot_id

/-- The dropdown text for a match: `f"{robot1_name} vs {robot2_name}"`. -/
def matchText (rd : List (Nat × Robot)) (m : Match) : String :=
  robotNameOrDefault rd m.robot_1_id ++ " vs " ++ robotNameOrDefault rd m.robot_2_id

/-- `QComboBox.itemData` on the auto match dropdown: `None` for a
negative or out-of-range index. -/
def itemDataAt (items : List AutoItem) (idx : Int) : Option Match :=
  if idx < 0 then none
  else (items.getD idx.toNat { text := "", mdata := none }).mdata

/-- `QComboBox.currentText` on the auto match dropdown: the empty string
for a negative or out-of-range index. -/
def currentTextAuto (items : List AutoItem) (idx : Int) : String :=
  if idx < 0 then ""
  else (items.getD idx.toNat { text := "", mdata := none }).text

/-- Index of the first item whose text equals `t`, if any. -/
def findTextIdxAux (t : String) : List AutoItem → Option Nat
  | [] => none
  | it :: rest =>
    if it.text == t then some 0 else (findTextIdxAux t rest).map (· + 1)

/-- `QComboBox.findText` (exact match): first matching index, else -1. -/
def findTextIdx (items : List AutoItem) (t : String) : Int :=
  match findTextIdxAux t items with
  | some i => Int.ofNat i
  | none => -1

/-- `ControlWindow.set_competitor_selection`: each side is set only when
`findText` locates the name among that dropdown's items. -/
def set_competitor_selection (left_name right_name : String) (s : CState) :
    CState :=
  let s1 :=
    if s.left_items.contains left_name then { s with left_text := left_name }
    else s
  if s1.right_items.contains right_name then { s1 with right_text := right_name }
  else s1

/-- `ControlWindow.on_match_selection_changed`: reads the currently
selected dropdown item; a negative index or an item without match data
is a no-op.  Otherwise the selected match becomes `current_match`, and a
held retained completed entry is cleared exactly when the selected id
differs from its id.  When both robot names resolve to truthy strings
the competitor selections are updated (and the presentation refresh
`update_names` runs, which does not touch this state). -/
def on_match_selection_changed (s : CState) : CState :=
  if s.auto_index < 0 then s
  else
    match itemDataAt s.auto_items s.auto_index with
    | none => s
    | some m =>
      let s1 := { s with current_match := some m }
      let s2 :=
        match s1.retained_completed_match with
        | some r =>
          if m.id != r.id then { s1 with retained_completed_match := none }
          else s1
        | none => s1
      let n1 := get_robot_name_by_id s2.robots_data m.robot_1_id
      let n2 := get_robot_name_by_id s2.robots_data m.robot_2_id
      if optStrTruthy n1 && optStrTruthy n2 then
        set_competitor_selection (n1.getD "") (n2.getD "") s2
      else s2

/-- `ControlWindow.update_match_dropdown`: with the
`currentTextChanged` signal disconnected, the dropdown is cleared and
rebuilt: the retained completed entry (with its COMPLETED marker) comes
first when held, then either the given matches, or the
`No matches available` placeholder when both are absent.  Rebuilding an
empty combo box leaves index 0 current (the list is never empty). -/
def update_match_dropdown (ms : List Match) (s : CState) : CState :=
  let retainedItems : List AutoItem :=
    match s.retained_completed_match with
    | some m =>
      [{ text := matchText s.robots_data m ++ " (COMPLETED)", mdata := some m }]
    | none => []
  let items :=
    if ms.isEmpty then
      if s.retained_completed_match.isNone then
        retainedItems ++ [{ text := "No matches available", mdata := none }]
      else retainedItems
    else
      retainedItems ++
        ms.map (fun m => { text := matchText s.robots_data m, mdata := some m })
  { s with auto_items := items, auto_index := if items.isEmpty then -1 else 0 }

/-- `QComboBox.setCurrentIndex` on the auto match dropdown with the
`currentTextChanged` signal connected to `on_match_selection_changed`:
the slot runs synchronously when the current text actually changes. -/
def setCurrentIndexAuto (i : Int) (s : CState) : CState :=
  let oldText := currentTextAuto s.auto_items s.auto_index
  let s1 := { s with auto_index := i }
  if currentTextAuto s1.auto_items i != oldText then
    on_match_selection_changed s1
  else s1

/-- Stable insertion into a match list ascending by id (the key function
of `sorted(self.matches_data, key=lambda x: x.get("id", 0))`). -/
def insertById (m : Match) : List Match → List Match
  | [] => [m]
  | x :: xs => if x.id < m.id then x :: insertById m xs else m :: x :: xs

/-- `sorted(matches, key=lambda x: x.get("id", 0))`: stable ascending
sort by match id. -/
def sortById (l : List Match) : List Match :=
  l.foldr insertById []

/-- The completion-detection phase of `auto_update_matches` (source
lines 1031-1043), run on the state `s1` already holding the fresh
matches cache: given the pre-refresh current match, when it exists, has
a truthy id, that id is absent from the fresh pending list, and no
retained entry is held, a copy of it becomes the retained completed
entry; otherwise nothing changes. -/
def autoRetentionStep (cmPrev : Option Match) (s1 : CState) : CState :=
  match cmPrev with
  | some cm =>
    if cm.id != 0 && !(s1.matches_data.any (fun m => m.id == cm.id)) &&
        s1.retained_completed_match.isNone then
      { s1 with retained_completed_match := some cm }
    else s1
  | none => s1

/-- The dropdown phase of `auto_update_matches` (source lines
1045-1059): only when the fresh matches cache is non-empty, rebuild the
dropdown from the list sorted ascending by id and restore the
previously displayed text (falling back to index 0), where
`setCurrentIndex` can fire `on_match_selection_changed` through the
reconnected signal.  When the cache is empty the dropdown is left
exactly as it was. -/
def autoRebuildStep (current_text : String) (s2 : CState) : CState :=
  if !s2.matches_data.isEmpty then
    let s3 := update_match_dropdown (sortById s2.matches_data) s2
    let idx := findTextIdx s3.auto_items current_text
    if 0 ≤ idx then setCurrentIndexAuto idx s3
    else if 0 < s3.auto_items.length then setCurrentIndexAuto 0 s3
    else s3
  else s2

/-- `ControlWindow.auto_update_matches`, the per-tick reconciliation
cycle.  It is a no-op outside auto mode or without a truthy tournament
id.  Otherwise it records the currently displayed text, refreshes the
matches cache (`load_matches_data`), runs the completion-detection
phase, and runs the dropdown rebuild-and-restore phase. -/
def auto_update_matches (autoChecked : Bool) (r : FetchResult MatchesPayload)
    (s : CState) : CState :=
  if !autoChecked then s
  else if !optNatTruthy s.current_tournament_id then s
  else
    autoRebuildStep (currentTextAuto s.auto_items s.auto_index)
      (autoRetentionStep s.current_match (load_matches_data r s))

/-- Stable insertion into a string list in ascending lexicographic
order (for `sorted(robot_names)`). -/
def insertStr (a : String) : List String → List String
  | [] => [a]
  | x :: xs => if x < a then x :: insertStr a xs else a :: x :: xs

/-- `sorted(robot_names)`: stable ascending sort of strings. -/
def sortStr (l : List String) : List String :=
  l.foldr insertStr []

/-- The per-side restore logic of `update_competitor_dropdowns` (the
source repeats this block verbatim for left and right): keep the
current text when it is in the sorted roster, otherwise restore the
truthy persisted name when it is in the sorted roster, otherwise fall
back to the placeholder at index 0.  The flag records whether the side
was preserved or restored. -/
def restoreSide (sorted_names : List String) (current : String)
    (lastC : Option String) (placeholder : String) : String × Bool :=
  if sorted_names.contains current then (current, true)
  else if optStrTruthy lastC && sorted_names.contains (lastC.getD "") then
    (lastC.getD "", true)
  else (placeholder, false)

/-- `ControlWindow.update_competitor_dropdowns`: rebuilds both editable
dropdowns from the sorted roster and applies `restoreSide` to each
side.  The returned flag is true when either side was preserved or
restored, in which case the source schedules a deferred `update_names`
(`QTimer.singleShot(300, ...)`). -/
def update_competitor_dropdowns (robot_names : List String) (s : CState) :
    CState × Bool :=
  let sorted_names := sortStr robot_names
  let leftRes := restoreSide sorted_names s.left_text s.last_left_competitor
    "-- Select Left Competitor --"
  let rightRes := restoreSide sorted_names s.right_text
    s.last_right_competitor "-- Select Right Competitor --"
  ({ s with
      left_items := "-- Select Left Competitor --" :: sorted_names,
      left_text := leftRes.1,
      right_items := "-- Select Right Competitor --" :: sorted_names,
      right_text := rightRes.1 },
   leftRes.2 || rightRes.2)

/-- The competitor value persisted by `ControlWindow.save_config`: the
dropdown text when it is non-empty and does not start with the
placeholder prefix, else `None`. -/
def savedCompetitor (t : String) : Option String :=
  if t != "" && !(t.startsWith "-- Select") then some t else none

/-- The selection-related slice of the flat configuration snapshot
written by `save_config` (colors and timer duration are UI settings
outside the modelled state). -/
structure ConfigSnapshot where
  last_tournament : Option String
  last_left_competitor : Option String
  last_right_competitor : Option String
  deriving DecidableEq

/-- `ControlWindow.save_config` (the dropdowns exist in every modelled
state, so the `hasattr` guard is always taken). -/
def save_config (s : CState) : ConfigSnapshot :=
  { last_tournament := s.current_tournament_name,
    last_left_competitor := savedCompetitor s.left_text,
    last_right_competitor := savedCompetitor s.right_text }

/-- `ControlWindow.get_robot_image_url`: the first operational record
matching the robot id and the current tournament id decides the result
(the loop breaks after it): a truthy `clean_image` wins over a truthy
`raw_image`, resolved against the service origin; otherwise `None`. -/
def get_robot_image_url (s : CState) (robot_id : Nat) : Option String :=
  match s.operational_data.find?
      (fun op => op.robot_id == robot_id &&
        some op.tournament_id == s.current_tournament_id) with
  | some op =>
    if optStrTruthy op.clean_image then
      some ("https://rslcheckin.replit.app" ++ op.clean_image.getD "")
    else if optStrTruthy op.raw_image then
      some ("https://rslcheckin.replit.app" ++ op.raw_image.getD "")
    else none
  | none => none

/-- The normalized robot view produced for the overlay renderer. -/
structure RobotView where
  bot_name : String
  team_name : String
  elo : JsonVal
  mrca_rank : Option Nat
  weight_class : String
  image_url : Option String
  deriving DecidableEq

/-- `ControlWindow.get_robot_data_for_overlay`: `None` for an unknown
id; otherwise the robot enriched with its image URL, the weight class
defaulting to 3lb when the key is absent. -/
def get_robot_data_for_overlay (s : CState) (robot_id : Nat) :
    Option RobotView :=
  match dictLookup s.robots_data robot_id with
  | none => none
  | some r =>
    some
      { bot_name := r.bot_name, team_name := r.team_name, elo := r.elo,
        mrca_rank := r.mrca_rank, weight_class := r.weight_class.getD "3lb",
        image_url := get_robot_image_url s robot_id }

/-- The payload shape returned by `get_robot_data_by_name` (the fields
the two literal fallback dictionaries carry; a found robot additionally
keeps its id and raw weight class, which no consumer of this claim
reads). -/
structure NamedRobotData where
  bot_name : String
  team_name : String
  elo : JsonVal
  mrca_rank : Option Nat
  image_url : Option String
  deriving DecidableEq

/-- `ControlWindow.get_robot_data_by_name`: the two placeholder texts
and the empty string yield the No Robot Selected payload; otherwise the
first robot (in dictionary insertion order) whose `bot_name` equals the
requested name is returned with its image URL; an unmatched name is
echoed back with Unknown Team, elo N/A and no image. -/
def get_robot_data_by_name (s : CState) (robot_name : String) :
    NamedRobotData :=
  if robot_name == "-- Select Left Competitor --" ||
      robot_name == "-- Select Right Competitor --" || robot_name == "" then
    { bot_name := "No Robot Selected", team_name := "", elo := .jstr "N/A",
      mrca_rank := none, image_url := none }
  else
    match s.robots_data.find? (fun p => p.2.bot_name == robot_name) with
    | some p =>
      { bot_name := p.2.bot_name, team_name := p.2.team_name, elo := p.2.elo,
        mrca_rank := p.2.mrca_rank, image_url := get_robot_image_url s p.1 }
    | none =>
      { bot_name := robot_name, team_name := "Unknown Team",
        elo := .jstr "N/A", mrca_rank := none, image_url := none }

/-- One entry of the match-queue payload. -/
structure QueueEntry where
  match_number : Nat
  red_bot : Option RobotView
  blue_bot : Option RobotView
  weight_class : String
  deriving DecidableEq

/-- The match-queue payload handed to `updateMatchQueue`. -/
structure QueuePayload where
  tournament_name : Option String
  «matches» : List QueueEntry
  deriving DecidableEq

/-- One queued entry of `show_match_queue_scene`: each side resolves to
an overlay robot view when its truthy robot id is a key of
`robots_data`, else `None`; the weight class comes from the red view
when present, defaulting to 3lb. -/
def queueEntryOf (s : CState) (m : Match) : QueueEntry :=
  let red_bot :=
    if m.robot_1_id != 0 && dictContains s.robots_data m.robot_1_id then
      get_robot_data_for_overlay s m.robot_1_id
    else none
  let blue_bot :=
    if m.robot_2_id != 0 && dictContains s.robots_data m.robot_2_id then
      get_robot_data_for_overlay s m.robot_2_id
    else none
  let wc :=
    match red_bot with
    | some rv => rv.weight_class
    | none => "3lb"
  { match_number := m.id, red_bot := red_bot, blue_bot := blue_bot,
    weight_class := wc }

/-- `ControlWindow.show_match_queue_scene` (and the identical payload
construction of `refresh_match_queue_data`): refresh the matches cache,
then build resolved entries for the first ten matches of the pending
list sorted ascending by id.  `current_tournament_name` is initialized,
so `getattr` returns its value (possibly `None`), never the default
string. -/
def show_match_queue_scene (r : FetchResult MatchesPayload) (s : CState) :
    QueuePayload :=
  let s1 := load_matches_data r s
  { tournament_name := s1.current_tournament_name,
    «matches» := ((sortById s1.matches_data).take 10).map (queueEntryOf s1) }

/-- One competitor-selection change event: its time in milliseconds and
the two dropdown texts it leaves in place. -/
structure ChangeEvent where
  t : Nat
  leftText : String
  rightText : String
  deriving DecidableEq

/-- The debounce machinery of `on_competitor_changed`: the single-shot
`_competitor_save_timer` holds at most one pending deadline (an
`Option`), plus the current dropdown texts that `save_config` would
read when it fires. -/
structure DebState where
  pendingAt : Option Nat
  leftText : String
  rightText : String
  deriving DecidableEq

/-- One persisted write: when it fired and the competitor values
`save_config` wrote. -/
structure PersistWrite where
  at_time : Nat
  last_left_competitor : Option String
  last_right_competitor : Option String
  deriving DecidableEq

/-- Fire the pending single-shot timer if its deadline has been reached
by `cutoff`: the write reads the dropdown texts at fire time. -/
def fireIfDue (cutoff : Nat) (s : DebState) (ws : List PersistWrite) :
    DebState × List PersistWrite :=
  match s.pendingAt with
  | some d =>
    if d ≤ cutoff then
      ({ s with pendingAt := none },
       ws ++ [{ at_time := d,
                last_left_competitor := savedCompetitor s.leftText,
                last_right_competitor := savedCompetitor s.rightText }])
    else (s, ws)
  | none => (s, ws)

/-- `ControlWindow.on_competitor_changed`: `start(500)` on the
single-shot timer replaces any pending deadline (reschedule, not
stack). -/
def on_competitor_changed (e : ChangeEvent) (_s : DebState) : DebState :=
  { pendingAt := some (e.t + 500), leftText := e.leftText,
    rightText := e.rightText }

/-- Run a timeline of selection-change events (times nondecreasing):
before each event any due pending write fires, the event then
reschedules the timer; after the last event the remaining pending write
fires.  Returns the final debounce state and the writes in order. -/
def debounceRun : List ChangeEvent → DebState → List PersistWrite →
    DebState × List PersistWrite
  | [], s, ws =>
    (match s.pendingAt with
     | some d =>
       ({ s with pendingAt := none },
        ws ++ [{ at_time := d,
                 last_left_competitor := savedCompetitor s.leftText,
                 last_right_competitor := savedCompetitor s.rightText }])
     | none => (s, ws))
  | e :: es, s, ws =>
    let p := fireIfDue e.t s ws
    debounceRun es (on_competitor_changed e p.1) p.2

/-- A burst: event times are nondecreasing and each gap is under the
500ms quiet interval. -/
def burstTight : List ChangeEvent → Bool
  | [] => true
  | [_] => true
  | a :: b :: rest => (a.t ≤ b.t && b.t < a.t + 500) && burstTight (b :: rest)

/-! Concrete fixtures used by witness and counterexample theorems. -/

/-- Fixture robot A (id 1). -/
def sampleRobotA : Robot :=
  { id := 1, bot_name := "A", team_name := "TA", elo := .jnum 1000,
    mrca_rank := some 4, weight_class := some "3lb" }

/-- Fixture robot B (id 2). -/
def sampleRobotB : Robot :=
  { id := 2, bot_name := "B", team_name := "TB", elo := .jnum 900,
    mrca_rank := none, weight_class := none }

/-- Fixture robot C (id 3). -/
def sampleRobotC : Robot :=
  { id := 3, bot_name := "C", team_name := "TC", elo := .jnull,
    mrca_rank := none, weight_class := none }

/-- Fixture tournament T1 (id 3). -/
def sampleT1 : Tournament :=
  { id := 3, name := "T1", event_organizer := "O1", location := "L1" }

/-- Fixture tournament T2 (id 4). -/
def sampleT2 : Tournament :=
  { id := 4, name := "T2", event_organizer := "O2", location := "L2" }

/-- Fixture match 5 between robots 1 and 2. -/
def sampleM5 : Match := { id := 5, robot_1_id := 1, robot_2_id := 2 }

/-- Fixture match 7 between robots 1 and 2. -/
def sampleM7 : Match := { id := 7, robot_1_id := 1, robot_2_id := 2 }

/-- Fixture match 8 between robots 3 and 2. -/
def sampleM8 : Match := { id := 8, robot_1_id := 3, robot_2_id := 2 }

/-- Fixture match 9 between robots 1 and 2 (a rematch of the same
pairing as matches 5 and 7). -/
def sampleM9 : Match := { id := 9, robot_1_id := 1, robot_2_id := 2 }

/-- Fixture control state: tournament T1 selected, auto dropdown showing
match 7 between robots A and B. -/
def baseState : CState :=
  { tournaments_data := [("T1", sampleT1), ("T2", sampleT2)],
    robots_data := [(1, sampleRobotA), (2, sampleRobotB), (3, sampleRobotC)],
    operational_data :=
      [{ robot_id := 1, tournament_id := 3, clean_image := some "/img/a.png",
         raw_image := none }],
    matches_data := [sampleM7],
    current_tournament_id := some 3,
    current_tournament_name := some "T1",
    data_loaded := true,
    current_match := some sampleM7,
    retained_completed_match := none,
    auto_items := [{ text := "A vs B", mdata := some sampleM7 }],
    auto_index := 0,
    tournament_items := ["-- Select Tournament --", "T1", "T2"],
    left_items := ["-- Select Left Competitor --", "A", "B", "C"],
    left_text := "A",
    right_items := ["-- Select Right Competitor --", "A", "B", "C"],
    right_text := "B",
    last_left_competitor := none,
    last_right_competitor := none }

/-- Fixture change events for the debounce witness: five selection
changes 100ms apart. -/
def sampleEvent (n : Nat) (l : String) : ChangeEvent :=
  { t := n, leftText := l, rightText := "B" }

/-- Fixture state holding a retained completed entry for match 5 while
match 7 is current. -/
def retainedState : CState :=
  { baseState with retained_completed_match := some sampleM5 }

/-- Fixture state for roster reconciliation: the left side has a live
selection, the right side has only a persisted name. -/
def rosterMixState : CState :=
  { baseState with right_text := "Z", last_right_competitor := some "B" }

/-! Helper lemmas about the embedded operations. -/

theorem mem_insertById (a m : Match) (l : List Match) :
    a ∈ insertById m l ↔ a = m ∨ a ∈ l := by
  induction l with
  | nil => simp [insertById]
  | cons x xs ih =>
    by_cases hx : x.id < m.id
    · simp only [insertById, if_pos hx, List.mem_cons, ih]
      tauto
    · simp only [insertById, if_neg hx, List.mem_cons]

theorem mem_sortById (a : Match) (l : List Match) :
    a ∈ sortById l ↔ a ∈ l := by
  induction l with
  | nil => simp [sortById]
  | cons x xs ih =>
    simp only [sortById, List.foldr_cons] at *
    rw [mem_insertById, ih, List.mem_cons]

theorem length_insertById (m : Match) (l : List Match) :
    (insertById m l).length = l.length + 1 := by
  induction l with
  | nil => simp [insertById]
  | cons x xs ih =>
    by_cases hx : x.id < m.id
    · simp [insertById, if_pos hx, ih]
    · simp [insertById, if_neg hx]

theorem length_sortById (l : List Match) :
    (sortById l).length = l.length := by
  induction l with
  | nil => rfl
  | cons x xs ih => simp [sortById, List.foldr_cons, length_insertById] at *; omega

theorem sortById_ne_nil (l : List Match) (h : l ≠ []) : sortById l ≠ [] := by
  intro hc
  have := length_sortById l
  rw [hc] at this
  exact h (List.length_eq_zero.mp this.symm)

theorem pairwise_insertById (m : Match) (l : List Match)
    (h : l.Pairwise (fun a b => a.id ≤ b.id)) :
    (insertById m l).Pairwise (fun a b => a.id ≤ b.id) := by
  induction l with
  | nil => simp [insertById]
  | cons x xs ih =>
    rcases List.pairwise_cons.mp h with ⟨hx, hxs⟩
    by_cases hlt : x.id < m.id
    · simp only [insertById, if_pos hlt]
      refine List.pairwise_cons.mpr ⟨?_, ih hxs⟩
      intro y hy
      rcases (mem_insertById y m xs).mp hy with hym | hyxs
      · subst hym; exact Nat.le_of_lt hlt
      · exact hx y hyxs
    · simp only [insertById, if_neg hlt]
      refine List.pairwise_cons.mpr ⟨?_, h⟩
      intro y hy
      rcases List.mem_cons.mp hy with hyx | hyxs
      · subst hyx; exact Nat.le_of_not_lt hlt
      · exact Nat.le_trans (Nat.le_of_not_lt hlt) (hx y hyxs)

theorem pairwise_sortById (l : List Match) :
    (sortById l).Pairwise (fun a b => a.id ≤ b.id) := by
  induction l with
  | nil => exact List.Pairwise.nil
  | cons x xs ih => exact pairwise_insertById x (sortById xs) ih

theorem mem_insertStr (a x : String) (l : List String) :
    a ∈ insertStr x l ↔ a = x ∨ a ∈ l := by
  induction l with
  | nil => simp [insertStr]
  | cons y ys ih =>
    by_cases hy : y < x
    · simp only [insertStr, if_pos hy, List.mem_cons, ih]
      tauto
    · simp only [insertStr, if_neg hy, List.mem_cons]

theorem mem_sortStr (a : String) (l : List String) :
    a ∈ sortStr l ↔ a ∈ l := by
  induction l with
  | nil => simp [sortStr]
  | cons x xs ih =>
    simp only [sortStr, List.foldr_cons] at *
    rw [mem_insertStr, ih, List.mem_cons]

theorem contains_sortStr (a : String) (l : List String) :
    (sortStr l).contains a = true ↔ a ∈ l := by
  rw [List.elem_iff]
  exact mem_sortStr a l

theorem contains_sortStr_false (a : String) (l : List String) (h : a ∉ l) :
    (sortStr l).contains a = false :=
  Bool.eq_false_iff.mpr (fun hc => h ((contains_sortStr a l).mp hc))

theorem restoreSide_mem (names : List String) (cur : String)
    (lastC : Option String) (ph : String) (h : cur ∈ names) :
    restoreSide (sortStr names) cur lastC ph = (cur, true) := by
  unfold restoreSide
  rw [if_pos ((contains_sortStr cur names).mpr h)]

theorem restoreSide_last (names : List String) (cur : String)
    (lastC : Option String) (ph : String) (n : String)
    (hcur : cur ∉ names) (hn : lastC = some n) (hne : n ≠ "")
    (hmem : n ∈ names) :
    restoreSide (sortStr names) cur lastC ph = (n, true) := by
  unfold restoreSide
  rw [if_neg (by
    rw [contains_sortStr_false cur names hcur]
    exact Bool.false_ne_true)]
  rw [if_pos]
  · rw [hn]
    rfl
  · rw [hn]
    simp only [Option.getD_some, Bool.and_eq_true]
    exact ⟨by simpa [optStrTruthy] using hne, (contains_sortStr n names).mpr hmem⟩

theorem restoreSide_placeholder (names : List String) (cur : String)
    (lastC : Option String) (ph : String)
    (hcur : cur ∉ names)
    (hnone : ∀ n, lastC = some n → n ∉ names) :
    restoreSide (sortStr names) cur lastC ph = (ph, false) := by
  unfold restoreSide
  rw [if_neg (by
    rw [contains_sortStr_false cur names hcur]
    exact Bool.false_ne_true)]
  rw [if_neg]
  cases hl : lastC with
  | none => simp [optStrTruthy]
  | some n =>
    simp only [Option.getD_some, Bool.and_eq_true, not_and]
    intro _
    rw [contains_sortStr_false n names (hnone n hl)]
    exact Bool.false_ne_true

theorem load_matches_data_proj (r : FetchResult MatchesPayload) (s : CState) :
    (load_matches_data r s).retained_completed_match =
        s.retained_completed_match ∧
    (load_matches_data r s).current_match = s.current_match ∧
    (load_matches_data r s).auto_items = s.auto_items ∧
    (load_matches_data r s).auto_index = s.auto_index ∧
    (load_matches_data r s).robots_data = s.robots_data ∧
    (load_matches_data r s).current_tournament_id = s.current_tournament_id := by
  unfold load_matches_data
  split
  · simp
  · cases r with
    | err => simp
    | ok p => dsimp only; split <;> simp

theorem autoRetentionStep_proj (cmPrev : Option Match) (s1 : CState) :
    (autoRetentionStep cmPrev s1).matches_data = s1.matches_data ∧
    (autoRetentionStep cmPrev s1).auto_items = s1.auto_items ∧
    (autoRetentionStep cmPrev s1).auto_index = s1.auto_index ∧
    (autoRetentionStep cmPrev s1).robots_data = s1.robots_data := by
  unfold autoRetentionStep
  cases cmPrev with
  | none => simp
  | some cm => dsimp only; split <;> simp

theorem set_competitor_selection_proj (a b : String) (s : CState) :
    (set_competitor_selection a b s).current_match = s.current_match ∧
    (set_competitor_selection a b s).retained_completed_match =
        s.retained_completed_match ∧
    (set_competitor_selection a b s).auto_items = s.auto_items ∧
    (set_competitor_selection a b s).auto_index = s.auto_index ∧
    (set_competitor_selection a b s).matches_data = s.matches_data := by
  unfold set_competitor_selection
  dsimp only
  split <;> split <;> simp

theorem on_match_selection_changed_proj (s : CState) :
    (on_match_selection_changed s).auto_items = s.auto_items ∧
    (on_match_selection_changed s).auto_index = s.auto_index ∧
    (on_match_selection_changed s).matches_data = s.matches_data := by
  unfold on_match_selection_changed
  dsimp only
  repeat' split
  all_goals simp [set_competitor_selection_proj]

theorem setCurrentIndexAuto_items (i : Int) (s : CState) :
    (setCurrentIndexAuto i s).auto_items = s.auto_items := by
  unfold setCurrentIndexAuto
  dsimp only
  split
  · exact (on_match_selection_changed_proj _).1
  · rfl

theorem setCurrentIndexAuto_same_index (i : Int) (s : CState)
    (h : s.auto_index = i) :
    (setCurrentIndexAuto i s).retained_completed_match =
        s.retained_completed_match ∧
    (setCurrentIndexAuto i s).current_match = s.current_match := by
  unfold setCurrentIndexAuto
  dsimp only
  rw [← h]
  simp

theorem findTextIdxAux_eq_none (t : String) (l : List AutoItem)
    (h : ∀ it ∈ l, it.text ≠ t) : findTextIdxAux t l = none := by
  induction l with
  | nil => rfl
  | cons x xs ih =>
    have hx : (x.text == t) = false := by
      simp only [beq_eq_false_iff_ne]
      exact h x (List.mem_cons_self x xs)
    simp only [findTextIdxAux, hx, if_neg Bool.false_ne_true]
    rw [ih (fun it hit => h it (List.mem_cons_of_mem x hit))]
    rfl

theorem update_match_dropdown_retained_cons (ms : List Match) (s : CState)
    (q : Match) (hq : s.retained_completed_match = some q) (hms : ms ≠ []) :
    (update_match_dropdown ms s).auto_items =
      { text := matchText s.robots_data q ++ " (COMPLETED)",
        mdata := some q } ::
        ms.map (fun m =>
          { text := matchText s.robots_data m, mdata := some m }) ∧
    (update_match_dropdown ms s).auto_index = 0 ∧
    (update_match_dropdown ms s).retained_completed_match =
        s.retained_completed_match ∧
    (update_match_dropdown ms s).current_match = s.current_match := by
  unfold update_match_dropdown
  rw [hq]
  have : ms.isEmpty = false := by
    cases ms with
    | nil => exact absurd rfl hms
    | cons a l => rfl
  simp [this, hq]

theorem update_match_dropdown_empty_retained (s : CState) (q : Match)
    (hq : s.retained_completed_match = some q) :
    (update_match_dropdown [] s).auto_items =
      [{ text := matchText s.robots_data q ++ " (COMPLETED)",
         mdata := some q }] := by
  unfold update_match_dropdown
  rw [hq]
  simp

theorem autoRetentionStep_sets (cm : Match) (s1 : CState)
    (hid : cm.id ≠ 0)
    (habs : ∀ m ∈ s1.matches_data, m.id ≠ cm.id)
    (hnone : s1.retained_completed_match = none) :
    autoRetentionStep (some cm) s1 =
      { s1 with retained_completed_match := some cm } := by
  unfold autoRetentionStep
  have h1 : (cm.id != 0) = true := by simpa using hid
  have h2 : (s1.matches_data.any fun m => m.id == cm.id) = false := by
    rw [List.any_eq_false]
    intro m hm
    simpa using habs m hm
  simp [h1, h2, hnone]

theorem autoRetentionStep_keeps (cmPrev : Option Match) (s1 : CState)
    (q : Match) (hq : s1.retained_completed_match = some q) :
    autoRetentionStep cmPrev s1 = s1 := by
  unfold autoRetentionStep
  cases cmPrev with
  | none => rfl
  | some cm => simp [hq]

theorem autoRebuildStep_retained (current_text : String) (s2 : CState)
    (q : Match) (hq : s2.retained_completed_match = some q)
    (hcoll : ∀ m ∈ s2.matches_data,
      matchText s2.robots_data m ≠ current_text) :
    (autoRebuildStep current_text s2).retained_completed_match = some q := by
  unfold autoRebuildStep
  cases he : s2.matches_data.isEmpty with
  | true => simpa [he] using hq
  | false =>
    have hne : s2.matches_data ≠ [] := by
      intro hc
      rw [hc] at he
      cases he
    have hms : sortById s2.matches_data ≠ [] := sortById_ne_nil _ hne
    obtain ⟨hitems, hidx, hret, -⟩ :=
      update_match_dropdown_retained_cons (sortById s2.matches_data) s2 q hq hms
    have htail : ∀ it ∈ (sortById s2.matches_data).map
        (fun m =>
          ({ text := matchText s2.robots_data m, mdata := some m } : AutoItem)),
        it.text ≠ current_text := by
      intro it hit
      rcases List.mem_map.mp hit with ⟨m, hm, rfl⟩
      exact hcoll m ((mem_sortById m _).mp hm)
    simp only [he, Bool.not_false, if_true]
    by_cases hhd :
        ((matchText s2.robots_data q ++ " (COMPLETED)" : String) == current_text)
          = true
    · have haux :
          findTextIdx
            (update_match_dropdown (sortById s2.matches_data) s2).auto_items
            current_text = Int.ofNat 0 := by
        rw [hitems]
        simp [findTextIdx, findTextIdxAux, hhd]
      rw [haux]
      rw [if_pos (by decide : (0 : Int) ≤ Int.ofNat 0)]
      rw [(setCurrentIndexAuto_same_index (Int.ofNat 0) _ hidx).1]
      exact hret.trans hq
    · have hhd' :
          ((matchText s2.robots_data q ++ " (COMPLETED)" : String) ==
            current_text) = false := Bool.eq_false_iff.mpr hhd
      have haux :
          findTextIdx
            (update_match_dropdown (sortById s2.matches_data) s2).auto_items
            current_text = -1 := by
        rw [hitems]
        have htail0 := findTextIdxAux_eq_none current_text _ htail
        simp [findTextIdx, findTextIdxAux, hhd', htail0]
      rw [haux]
      rw [if_neg (by decide : ¬ ((0 : Int) ≤ -1))]
      have hlen : 0 <
          (update_match_dropdown (sortById s2.matches_data) s2).auto_items.length := by
        rw [hitems]
        simp
      rw [if_pos hlen]
      rw [(setCurrentIndexAuto_same_index 0 _ hidx).1]
      exact hret.trans hq

theorem autoRebuildStep_items_nonempty (current_text : String) (s2 : CState)
    (q : Match) (hq : s2.retained_completed_match = some q)
    (hne : s2.matches_data ≠ []) :
    (autoRebuildStep current_text s2).auto_items =
      { text := matchText s2.robots_data q ++ " (COMPLETED)",
        mdata := some q } ::
        (sortById s2.matches_data).map (fun m =>
          { text := matchText s2.robots_data m, mdata := some m }) := by
  unfold autoRebuildStep
  have he : s2.matches_data.isEmpty = false := by
    cases hm : s2.matches_data with
    | nil => exact absurd hm hne
    | cons a l => rfl
  have hms : sortById s2.matches_data ≠ [] := sortById_ne_nil _ hne
  obtain ⟨hitems, -, -, -⟩ :=
    update_match_dropdown_retained_cons (sortById s2.matches_data) s2 q hq hms
  simp only [he, Bool.not_false, if_pos]
  split
  · rw [setCurrentIndexAuto_items, hitems]
  · split
    · rw [setCurrentIndexAuto_items, hitems]
    · exact hitems

theorem autoRebuildStep_empty (current_text : String) (s2 : CState)
    (he : s2.matches_data = []) :
    autoRebuildStep current_text s2 = s2 := by
  unfold autoRebuildStep
  simp [he]

theorem debounceRun_burst (es : List ChangeEvent) :
    ∀ (e : ChangeEvent) (ws : List PersistWrite),
      burstTight (e :: es) = true →
      debounceRun es
        { pendingAt := some (e.t + 500), leftText := e.leftText,
          rightText := e.rightText } ws =
      ({ pendingAt := none, leftText := (es.getLastD e).leftText,
         rightText := (es.getLastD e).rightText },
       ws ++ [{ at_time := (es.getLastD e).t + 500,
                last_left_competitor :=
                  savedCompetitor (es.getLastD e).leftText,
                last_right_competitor :=
                  savedCompetitor (es.getLastD e).rightText }]) := by
  induction es with
  | nil =>
    intro e ws _
    simp [debounceRun, List.getLastD]
  | cons e2 rest ih =>
    intro e ws h
    have h' : ((e.t ≤ e2.t && e2.t < e.t + 500) && burstTight (e2 :: rest))
        = true := h
    rw [Bool.and_eq_true, Bool.and_eq_true] at h'
    have hlt : e2.t < e.t + 500 := by simpa using h'.1.2
    have hfire : ¬ (e.t + 500 ≤ e2.t) := Nat.not_le.mpr hlt
    simp only [debounceRun, fireIfDue]
    rw [if_neg hfire]
    simp only [on_competitor_changed]
    rw [ih e2 ws h'.2]
    rw [List.getLastD_cons]

theorem robotsLoop_all_fail (as : List RobotsAttempt) :
    ∀ rd, as ≠ [] → (∀ a ∈ as, attemptOk a = false) →
      robotsLoop as rd = [] := by
  induction as with
  | nil =>
    intro rd h _
    exact absurd rfl h
  | cons a rest ih =>
    intro rd _ h
    cases rest with
    | nil =>
      cases a with
      | exn => rfl
      | payload rs =>
        have hrs : rs.isEmpty = true := by
          simpa [attemptOk] using h (.payload rs) (List.mem_singleton_self _)
        simp [robotsLoop, hrs]
    | cons b l =>
      have hrest : ∀ x ∈ b :: l, attemptOk x = false := fun x hx =>
        h x (List.mem_cons_of_mem a hx)
      cases a with
      | exn =>
        rw [show robotsLoop (RobotsAttempt.exn :: b :: l) rd =
            robotsLoop (b :: l) rd from rfl]
        exact ih rd (by simp) hrest
      | payload rs =>
        have hrs : rs.isEmpty = true := by
          simpa [attemptOk] using h (.payload rs) (List.mem_cons_self _ _)
        rw [show robotsLoop (RobotsAttempt.payload rs :: b :: l) rd =
            if rs.isEmpty then robotsLoop (b :: l) [] else buildRobotsMap rs
          from rfl]
        rw [if_pos hrs]
        exact ih [] (by simp) hrest

/-! Claim theorems. -/

/-- Claim C1, counterexample: with a non-empty matches cache and a
truthy current tournament id, a failed matches fetch does not leave the
cached matches collection at its prior value: `load_matches_data` sets
it to the empty list in its except branch. -/
theorem c1_counterexample :
    baseState.matches_data = [sampleM7] ∧
    optNatTruthy baseState.current_tournament_id = true ∧
    (load_matches_data .err baseState).matches_data = [] :=
  ⟨rfl, rfl, rfl⟩

/-- Claim C1 (amended): on a fetch exception the tournaments loader
leaves the cached tournaments and the dropdown unchanged, and the
operational loader leaves the state unchanged; but a failed matches
fetch under a truthy tournament id resets the matches cache to the
empty list, a robots fetch whose three attempts all fail resets the
robots cache to the empty dictionary, and a decoded tournaments
response without a truthy success flag and tournament list clears the
tournaments cache.  No exception escapes any loader: each is a total
function that consumes the failure internally. -/
theorem c1_fetch_failure_isolation :
    (∀ s : CState,
      (load_tournaments .err s).tournaments_data = s.tournaments_data ∧
      (load_tournaments .err s).tournament_items = s.tournament_items) ∧
    (∀ s : CState, load_operational_data .err s = s) ∧
    (∀ s : CState, optNatTruthy s.current_tournament_id = true →
      (load_matches_data .err s).matches_data = []) ∧
    (∀ (a1 a2 a3 : RobotsAttempt) (s : CState),
      attemptOk a1 = false → attemptOk a2 = false → attemptOk a3 = false →
      (load_robots_data a1 a2 a3 s).robots_data = []) ∧
    (∀ (p : TournamentsPayload) (s : CState),
      (p.success && !p.tournaments.isEmpty) = false →
      (load_tournaments (.ok p) s).tournaments_data = []) := by
  refine ⟨fun s => ⟨rfl, rfl⟩, fun s => rfl, ?_, ?_, ?_⟩
  · intro s h
    unfold load_matches_data
    rw [h]
    simp
  · intro a1 a2 a3 s h1 h2 h3
    unfold load_robots_data
    dsimp only
    apply robotsLoop_all_fail
    · simp
    · intro a ha
      simp only [List.mem_cons, List.not_mem_nil, or_false] at ha
      rcases ha with rfl | rfl | rfl
      · exact h1
      · exact h2
      · exact h3
  · intro p s h
    unfold load_tournaments
    dsimp only
    rw [if_neg (by simp [h])]

/-- Claim C1, witness for the amended theorem: a concrete failed
matches fetch empties the matches cache and three failed robots
attempts empty the robots cache. -/
theorem c1_witness :
    (load_matches_data .err baseState).matches_data = [] ∧
    (load_robots_data .exn .exn .exn baseState).robots_data = [] :=
  ⟨c1_fetch_failure_isolation.2.2.1 baseState rfl,
   c1_fetch_failure_isolation.2.2.2.1 .exn .exn .exn baseState rfl rfl rfl⟩

/-- Claim C2, counterexample: switching from tournament T1 to the
resolvable tournament T2 — and likewise switching to the placeholder —
leaves both `current_match` and `retained_completed_match` at their old
values; `on_tournament_selected` never resets them. -/
theorem c2_counterexample :
    retainedState.current_tournament_name = some "T1" ∧
    (on_tournament_selected "T2" retainedState).current_tournament_name =
        some "T2" ∧
    (on_tournament_selected "T2" retainedState).current_tournament_id =
        some 4 ∧
    (on_tournament_selected "T2" retainedState).retained_completed_match =
        some sampleM5 ∧
    (on_tournament_selected "T2" retainedState).current_match =
        some sampleM7 ∧
    (on_tournament_selected "-- Select Tournament --"
        retainedState).retained_completed_match = some sampleM5 :=
  ⟨rfl, rfl, rfl, rfl, rfl, rfl⟩

/-- Claim C2 (amended): a tournament switch (resolved name, unresolved
name, or the placeholder) leaves `current_match` and
`retained_completed_match` unchanged; match state carries over across
tournaments until a different match is selected. -/
theorem c2_tournament_switch_keeps_match_state (tournament_name : String)
    (s : CState) :
    (on_tournament_selected tournament_name s).current_match =
        s.current_match ∧
    (on_tournament_selected tournament_name s).retained_completed_match =
        s.retained_completed_match := by
  unfold on_tournament_selected clear_competitor_dropdowns
  repeat' split
  all_goals simp

/-- Claim C9 (confirmed): every persisted configuration snapshot has
`last_left_competitor` and `last_right_competitor` either null or equal
to the corresponding dropdown text, which then does not begin with the
placeholder prefix; a placeholder (or empty) selection is persisted as
null, never as the placeholder string itself. -/
theorem c9_persisted_competitor_shape (s : CState) :
    (∀ t, (save_config s).last_left_competitor = some t →
      t = s.left_text ∧ t.startsWith "-- Select" = false) ∧
    (∀ t, (save_config s).last_right_competitor = some t →
      t = s.right_text ∧ t.startsWith "-- Select" = false) ∧
    (s.left_text.startsWith "-- Select" = true →
      (save_config s).last_left_competitor = none) ∧
    (s.right_text.startsWith "-- Select" = true →
      (save_config s).last_right_competitor = none) := by
  unfold save_config savedCompetitor
  refine ⟨?_, ?_, ?_, ?_⟩
  · intro t h
    dsimp only at h
    split at h
    · rename_i hc
      rw [Bool.and_eq_true, Bool.not_eq_true'] at hc
      cases h
      exact ⟨rfl, hc.2⟩
    · cases h
  · intro t h
    dsimp only at h
    split at h
    · rename_i hc
      rw [Bool.and_eq_true, Bool.not_eq_true'] at hc
      cases h
      exact ⟨rfl, hc.2⟩
    · cases h
  · intro h
    dsimp only
    rw [if_neg (by simp [h])]
  · intro h
    dsimp only
    rw [if_neg (by simp [h])]

/-- Claim C9, witness: in the fixture state the saved left competitor
is the dropdown text A, which does not carry the placeholder prefix. -/
theorem c9_witness :
    "A" = baseState.left_text ∧ "A".startsWith "-- Select" = false :=
  (c9_persisted_competitor_shape baseState).1 "A" rfl

/-- Claim C10 (confirmed): `get_robot_data_by_name` is total (a Lean
function by construction, so no exception can escape); each placeholder
text and the empty name produce the No Robot Selected payload with a
null image URL, and a non-empty unmatched name is echoed back with
Unknown Team, elo N/A and a null image URL — a payload distinct from
the No Robot Selected payload. -/
theorem c10_robot_lookup_total (s : CState) (robot_name : String) :
    ((robot_name = "-- Select Left Competitor --" ∨
      robot_name = "-- Select Right Competitor --" ∨ robot_name = "") →
      get_robot_data_by_name s robot_name =
        { bot_name := "No Robot Selected", team_name := "",
          elo := .jstr "N/A", mrca_rank := none, image_url := none }) ∧
    (robot_name ≠ "-- Select Left Competitor --" →
     robot_name ≠ "-- Select Right Competitor --" → robot_name ≠ "" →
     (∀ p ∈ s.robots_data, p.2.bot_name ≠ robot_name) →
      get_robot_data_by_name s robot_name =
        { bot_name := robot_name, team_name := "Unknown Team",
          elo := .jstr "N/A", mrca_rank := none, image_url := none } ∧
      get_robot_data_by_name s robot_name ≠
        { bot_name := "No Robot Selected", team_name := "",
          elo := .jstr "N/A", mrca_rank := none, image_url := none }) := by
  constructor
  · intro h
    unfold get_robot_data_by_name
    rw [if_pos]
    rcases h with h | h | h <;> simp [h]
  · intro h1 h2 h3 hnone
    have hfind : s.robots_data.find? (fun p => p.2.bot_name == robot_name)
        = none := by
      rw [List.find?_eq_none]
      intro p hp
      simpa using hnone p hp
    have heq : get_robot_data_by_name s robot_name =
        { bot_name := robot_name, team_name := "Unknown Team",
          elo := .jstr "N/A", mrca_rank := none, image_url := none } := by
      unfold get_robot_data_by_name
      rw [if_neg (by simp [h1, h2, h3]), hfind]
    refine ⟨heq, ?_⟩
    rw [heq]
    intro hc
    have hteam : ("Unknown Team" : String) = "" :=
      congrArg NamedRobotData.team_name hc
    exact absurd hteam (by decide)

/-- Claim C10, witness: in the fixture state the unmatched name Nobody
is echoed back with Unknown Team, and the empty name yields the No
Robot Selected payload. -/
theorem c10_witness :
    get_robot_data_by_name baseState "Nobody" =
      { bot_name := "Nobody", team_name := "Unknown Team",
        elo := .jstr "N/A", mrca_rank := none, image_url := none } ∧
    get_robot_data_by_name baseState "" =
      { bot_name := "No Robot Selected", team_name := "",
        elo := .jstr "N/A", mrca_rank := none, image_url := none } :=
  ⟨((c10_robot_lookup_total baseState "Nobody").2 (by decide) (by decide)
      (by decide) (by decide)).1,
   (c10_robot_lookup_total baseState "").1 (Or.inr (Or.inr rfl))⟩

/-- Claim C5 (confirmed): at most one match is current at any time
(`current_match` is a single optional slot, and selection installs
exactly the one selected match), and when the selected match id differs
from the retained completed entry id the retained entry is cleared to
null, while selecting the retained entry itself (same id) keeps it. -/
theorem c5_retained_clears_on_reselect (s : CState) (m : Match)
    (hidx : ¬ s.auto_index < 0)
    (hdata : itemDataAt s.auto_items s.auto_index = some m) :
    (on_match_selection_changed s).current_match = some m ∧
    (∀ m1 m2, (on_match_selection_changed s).current_match = some m1 →
      (on_match_selection_changed s).current_match = some m2 → m1 = m2) ∧
    (∀ q, s.retained_completed_match = some q → m.id ≠ q.id →
      (on_match_selection_changed s).retained_completed_match = none) ∧
    (∀ q, s.retained_completed_match = some q → m.id = q.id →
      (on_match_selection_changed s).retained_completed_match = some q) := by
  have hcur : (on_match_selection_changed s).current_match = some m := by
    unfold on_match_selection_changed
    rw [if_neg hidx, hdata]
    dsimp only
    repeat' split
    all_goals simp [set_competitor_selection_proj]
  refine ⟨hcur, ?_, ?_, ?_⟩
  · intro m1 m2 h1 h2
    rw [h1] at h2
    exact Option.some.inj h2
  · intro q hq hne
    have hbne : (m.id != q.id) = true := bne_iff_ne.mpr hne
    unfold on_match_selection_changed
    rw [if_neg hidx, hdata]
    dsimp only
    rw [hq]
    repeat' split
    all_goals simp_all [set_competitor_selection_proj]
  · intro q hq heq
    have hbne : (m.id != q.id) = false := by
      rw [heq]
      exact bne_self_eq_false q.id
    unfold on_match_selection_changed
    rw [if_neg hidx, hdata]
    dsimp only
    rw [hq]
    repeat' split
    all_goals simp_all [set_competitor_selection_proj]

/-- Claim C5, witness: with the retained entry holding match 5 and the
dropdown selecting match 7, the selection handler installs match 7 as
the single current match and clears the retained entry. -/
theorem c5_witness :
    (on_match_selection_changed retainedState).current_match =
        some sampleM7 ∧
    (on_match_selection_changed retainedState).retained_completed_match =
        none := by
  have h := c5_retained_clears_on_reselect retainedState sampleM7
    (by decide) (by decide)
  exact ⟨h.1, h.2.2.1 sampleM5 rfl (by decide)⟩

/-- Claim C6 (confirmed): on a roster rebuild each side keeps its
current selection when it is in the new roster, otherwise restores the
last-persisted name when that is in the new roster, otherwise falls
back to its placeholder (never an arbitrary roster entry); and when at
least one side was preserved or restored the deferred presentation
update is scheduled.  The hypotheses that the persisted names are not
the empty string hold for every value `save_config` can write (claim
C9): the source only skips a falsy persisted name. -/
theorem c6_roster_reconcile (robot_names : List String) (s : CState)
    (hL : s.last_left_competitor ≠ some "")
    (hR : s.last_right_competitor ≠ some "") :
    (s.left_text ∈ robot_names →
      (update_competitor_dropdowns robot_names s).1.left_text =
        s.left_text) ∧
    (s.left_text ∉ robot_names →
      ∀ n, s.last_left_competitor = some n → n ∈ robot_names →
        (update_competitor_dropdowns robot_names s).1.left_text = n) ∧
    (s.left_text ∉ robot_names →
      (∀ n, s.last_left_competitor = some n → n ∉ robot_names) →
      (update_competitor_dropdowns robot_names s).1.left_text =
        "-- Select Left Competitor --") ∧
    (s.right_text ∈ robot_names →
      (update_competitor_dropdowns robot_names s).1.right_text =
        s.right_text) ∧
    (s.right_text ∉ robot_names →
      ∀ n, s.last_right_competitor = some n → n ∈ robot_names →
        (update_competitor_dropdowns robot_names s).1.right_text = n) ∧
    (s.right_text ∉ robot_names →
      (∀ n, s.last_right_competitor = some n → n ∉ robot_names) →
      (update_competitor_dropdowns robot_names s).1.right_text =
        "-- Select Right Competitor --") ∧
    ((s.left_text ∈ robot_names ∨
      (∃ n, s.last_left_competitor = some n ∧ n ∈ robot_names) ∨
      s.right_text ∈ robot_names ∨
      (∃ n, s.last_right_competitor = some n ∧ n ∈ robot_names)) →
      (update_competitor_dropdowns robot_names s).2 = true) := by
  refine ⟨?_, ?_, ?_, ?_, ?_, ?_, ?_⟩
  · intro h
    unfold update_competitor_dropdowns
    dsimp only
    rw [restoreSide_mem robot_names s.left_text _ _ h]
  · intro h n hn hmem
    have hne : n ≠ "" := fun hc => hL (by rw [hn, hc])
    unfold update_competitor_dropdowns
    dsimp only
    rw [restoreSide_last robot_names s.left_text _ _ n h hn hne hmem]
  · intro h hnone
    unfold update_competitor_dropdowns
    dsimp only
    rw [restoreSide_placeholder robot_names s.left_text _ _ h hnone]
  · intro h
    unfold update_competitor_dropdowns
    dsimp only
    rw [restoreSide_mem robot_names s.right_text _ _ h]
  · intro h n hn hmem
    have hne : n ≠ "" := fun hc => hR (by rw [hn, hc])
    unfold update_competitor_dropdowns
    dsimp only
    rw [restoreSide_last robot_names s.right_text _ _ n h hn hne hmem]
  · intro h hnone
    unfold update_competitor_dropdowns
    dsimp only
    rw [restoreSide_placeholder robot_names s.right_text _ _ h hnone]
  · intro h
    unfold update_competitor_dropdowns
    dsimp only
    rw [Bool.or_eq_true]
    by_cases hlm : s.left_text ∈ robot_names
    · left
      rw [restoreSide_mem robot_names s.left_text _ _ hlm]
    · by_cases hrm : s.right_text ∈ robot_names
      · right
        rw [restoreSide_mem robot_names s.right_text _ _ hrm]
      · rcases h with h | ⟨n, hn, hmem⟩ | h | ⟨n, hn, hmem⟩
        · exact absurd h hlm
        · left
          have hne : n ≠ "" := fun hc => hL (by rw [hn, hc])
          rw [restoreSide_last robot_names s.left_text _ _ n hlm hn hne hmem]
        · exact absurd h hrm
        · right
          have hne : n ≠ "" := fun hc => hR (by rw [hn, hc])
          rw [restoreSide_last robot_names s.right_text _ _ n hrm hn hne hmem]

/-- Claim C6, witness: with roster [A, B, C] the left side keeps its
live selection A, the right side (live text Z, persisted B) restores B,
and the deferred update is scheduled; with an empty roster both sides
fall back to their placeholders. -/
theorem c6_witness :
    (update_competitor_dropdowns ["A", "B", "C"] rosterMixState).1.left_text
        = "A" ∧
    (update_competitor_dropdowns ["A", "B", "C"] rosterMixState).1.right_text
        = "B" ∧
    (update_competitor_dropdowns ["A", "B", "C"] rosterMixState).2 = true ∧
    (update_competitor_dropdowns [] rosterMixState).1.left_text =
        "-- Select Left Competitor --" ∧
    (update_competitor_dropdowns [] rosterMixState).1.right_text =
        "-- Select Right Competitor --" := by
  have h1 := c6_roster_reconcile ["A", "B", "C"] rosterMixState
    (by decide) (by decide)
  have h2 := c6_roster_reconcile [] rosterMixState (by decide) (by decide)
  refine ⟨h1.1 (by decide), h1.2.2.2.2.1 (by decide) "B" rfl (by decide),
    h1.2.2.2.2.2.2 (Or.inl (by decide)), ?_, ?_⟩
  · exact h2.2.2.1 (List.not_mem_nil _) (fun n _ => List.not_mem_nil n)
  · exact h2.2.2.2.2.2.1 (List.not_mem_nil _) (fun n _ => List.not_mem_nil n)

/-- Claim C7 (confirmed): at most one persistence write is pending at
any time (`on_competitor_changed` replaces the single pending deadline,
never stacks a second one), and a burst of selection changes with all
gaps under the 500ms quiet interval produces exactly one persisted
write, carrying the last change's values through `save_config`'s
competitor filter. -/
theorem c7_debounce_coalescing (e : ChangeEvent) (es : List ChangeEvent)
    (l0 r0 : String) (h : burstTight (e :: es) = true) :
    (∀ (e2 : ChangeEvent) (d : DebState),
      (on_competitor_changed e2 d).pendingAt = some (e2.t + 500)) ∧
    (debounceRun (e :: es)
        { pendingAt := none, leftText := l0, rightText := r0 } []).2 =
      [{ at_time := (es.getLastD e).t + 500,
         last_left_competitor := savedCompetitor (es.getLastD e).leftText,
         last_right_competitor :=
           savedCompetitor (es.getLastD e).rightText }] := by
  refine ⟨fun e2 d => rfl, ?_⟩
  rw [show debounceRun (e :: es)
        { pendingAt := none, leftText := l0, rightText := r0 } [] =
      debounceRun es
        { pendingAt := some (e.t + 500), leftText := e.leftText,
          rightText := e.rightText } [] from rfl]
  rw [debounceRun_burst es e [] h]
  simp

/-- Claim C7, witness: five changes 100ms apart yield exactly one write
at 900ms holding the final values. -/
theorem c7_witness :
    (debounceRun
        [sampleEvent 0 "A", sampleEvent 100 "Bb", sampleEvent 200 "C",
         sampleEvent 300 "D", sampleEvent 400 "E"]
        { pendingAt := none, leftText := "", rightText := "" } []).2 =
      [{ at_time := 900, last_left_competitor := some "E",
         last_right_competitor := some "B" }] := by
  rw [(c7_debounce_coalescing (sampleEvent 0 "A")
      [sampleEvent 100 "Bb", sampleEvent 200 "C", sampleEvent 300 "D",
       sampleEvent 400 "E"] "" "" (by decide)).2]
  rfl

/-- Claim C8, counterexample: with a retained completed entry held
(match 5) and fresh pending matches 7 and 9, the match-queue payload
lists exactly matches 7 and 9 — the retained entry occupies no slot of
the payload, in particular not slot 0. -/
theorem c8_counterexample :
    retainedState.retained_completed_match = some sampleM5 ∧
    (show_match_queue_scene
        (.ok { success := true, «matches» := [sampleM9, sampleM7] })
        retainedState).«matches».map (·.match_number) = [7, 9] ∧
    sampleM5.id ∉
      (show_match_queue_scene
        (.ok { success := true, «matches» := [sampleM9, sampleM7] })
        retainedState).«matches».map (·.match_number) := by
  refine ⟨rfl, rfl, ?_⟩
  decide

/-- Claim C8 (amended): the match-queue payload contains resolved robot
views for at most 10 queued matches, namely the ascending-by-id first
ten of the freshly fetched pending list; the retained completed entry
is not part of the payload (it appears only in the control dropdown),
so the payload is unchanged under any retained value. -/
theorem c8_queue_payload (r : FetchResult MatchesPayload) (s : CState) :
    (show_match_queue_scene r s).«matches».length ≤ 10 ∧
    (show_match_queue_scene r s).«matches».Pairwise
      (fun a b => a.match_number ≤ b.match_number) ∧
    (show_match_queue_scene r s).«matches».map (·.match_number) =
      ((sortById (load_matches_data r s).matches_data).map (·.id)).take 10 ∧
    (∀ x, show_match_queue_scene r
        { s with retained_completed_match := x } =
      show_match_queue_scene r s) := by
  refine ⟨?_, ?_, ?_, ?_⟩
  · unfold show_match_queue_scene
    dsimp only
    rw [List.length_map, List.length_take]
    exact min_le_left _ _
  · unfold show_match_queue_scene
    dsimp only
    rw [List.pairwise_map]
    exact ((pairwise_sortById
      (load_matches_data r s).matches_data).sublist
        (List.take_sublist 10 _))
  · unfold show_match_queue_scene
    dsimp only
    rw [List.map_map, List.map_take]
    rfl
  · intro x
    unfold show_match_queue_scene load_matches_data
    dsimp only
    split
    · rfl
    · cases r with
      | err => rfl
      | ok p =>
        dsimp only
        split <;> rfl

/-- Claim C3, counterexample: in auto mode with current match 7 (robots
A vs B), no retained entry, and a fresh pending list holding only the
rematch 9 of the same robots, the cycle does set the retained entry to
match 7 — but its dropdown-restore step then finds the old display text
A vs B on the fresh match 9, selects it through the reconnected
`currentTextChanged` signal, and `on_match_selection_changed` clears
the retained entry again, so the cycle ends with
`retained_completed_match = none` instead of a copy of match 7. -/
theorem c3_counterexample :
    baseState.current_match = some sampleM7 ∧
    baseState.retained_completed_match = none ∧
    (load_matches_data
        (.ok { success := true, «matches» := [sampleM9] })
        baseState).matches_data = [sampleM9] ∧
    sampleM9.id ≠ sampleM7.id ∧
    (auto_update_matches true
        (.ok { success := true, «matches» := [sampleM9] })
        baseState).retained_completed_match = none ∧
    (auto_update_matches true
        (.ok { success := true, «matches» := [sampleM9] })
        baseState).current_match = some sampleM9 := by
  refine ⟨rfl, rfl, rfl, by decide, ?_, ?_⟩ <;> rfl

/-- Claim C3 (amended): in auto mode with a non-null current match
whose id is nonzero and absent from the freshly fetched pending list,
the cycle sets `retained_completed_match` to a copy of the previous
current match when none is held, and never overwrites one already held
— and the entry still holds at the end of the cycle provided no fresh
pending match displays the same text as the previously displayed
selection (a text collision, e.g. a rematch of the same pairing, makes
the selection-restore step select that fresh match as the new current
match, which clears the retained entry). -/
theorem c3_completion_retention (r : FetchResult MatchesPayload)
    (s : CState) (cm : Match)
    (hct : optNatTruthy s.current_tournament_id = true)
    (hcm : s.current_match = some cm)
    (hid : cm.id ≠ 0)
    (habs : ∀ m ∈ (load_matches_data r s).matches_data, m.id ≠ cm.id)
    (hcoll : ∀ m ∈ (load_matches_data r s).matches_data,
      matchText s.robots_data m ≠
        currentTextAuto s.auto_items s.auto_index) :
    (s.retained_completed_match = none →
      (auto_update_matches true r s).retained_completed_match = some cm) ∧
    (∀ q, s.retained_completed_match = some q →
      (auto_update_matches true r s).retained_completed_match = some q) := by
  have hproj := load_matches_data_proj r s
  have hred : auto_update_matches true r s =
      autoRebuildStep (currentTextAuto s.auto_items s.auto_index)
        (autoRetentionStep s.current_match (load_matches_data r s)) := by
    unfold auto_update_matches
    rw [if_neg (by decide), if_neg (by simp [hct])]
  constructor
  · intro hnone
    have hset : autoRetentionStep s.current_match (load_matches_data r s) =
        { load_matches_data r s with retained_completed_match := some cm } := by
      rw [hcm]
      exact autoRetentionStep_sets cm _ hid habs (hproj.1.trans hnone)
    rw [hred, hset]
    apply autoRebuildStep_retained
    · rfl
    · intro m hm
      show matchText (load_matches_data r s).robots_data m ≠
        currentTextAuto s.auto_items s.auto_index
      rw [hproj.2.2.2.2.1]
      exact hcoll m hm
  · intro q hq
    have hkeep : autoRetentionStep s.current_match (load_matches_data r s) =
        load_matches_data r s :=
      autoRetentionStep_keeps s.current_match _ q (hproj.1.trans hq)
    rw [hred, hkeep]
    apply autoRebuildStep_retained
    · exact hproj.1.trans hq
    · intro m hm
      rw [hproj.2.2.2.2.1]
      exact hcoll m hm

/-- Claim C3, witness: with current match 7 and a fresh list holding
only match 8 (robots C vs B, a different display text), the retained
entry becomes a copy of match 7; and when the retained entry already
holds match 5 it is kept. -/
theorem c3_witness :
    (auto_update_matches true
        (.ok { success := true, «matches» := [sampleM8] })
        baseState).retained_completed_match = some sampleM7 ∧
    (auto_update_matches true
        (.ok { success := true, «matches» := [sampleM8] })
        retainedState).retained_completed_match = some sampleM5 := by
  constructor
  · exact (c3_completion_retention _ baseState sampleM7 rfl rfl
      (by decide) (by decide) (by decide)).1 rfl
  · exact (c3_completion_retention _ retainedState sampleM7 rfl rfl
      (by decide) (by decide) (by decide)).2 sampleM5 rfl

/-- Claim C4, counterexample: in the scenario where the next poll
returns the empty list, the cycle retains match 7 but leaves the
dropdown exactly as it was — the stale entry A vs B without the
COMPLETED marker — instead of producing the one-element display list
holding the retained completed entry with its marker. -/
theorem c4_counterexample :
    baseState.current_match = some sampleM7 ∧
    (load_matches_data (.ok { success := true, «matches» := [] })
        baseState).matches_data = [] ∧
    (auto_update_matches true
        (.ok { success := true, «matches» := [] })
        baseState).retained_completed_match = some sampleM7 ∧
    (auto_update_matches true
        (.ok { success := true, «matches» := [] })
        baseState).auto_items =
      [{ text := "A vs B", mdata := some sampleM7 }] ∧
    (auto_update_matches true
        (.ok { success := true, «matches» := [] })
        baseState).auto_items ≠
      [{ text := matchText baseState.robots_data sampleM7 ++ " (COMPLETED)",
         mdata := some sampleM7 }] := by
  refine ⟨rfl, rfl, rfl, rfl, ?_⟩
  decide

/-- Claim C4 (amended): in a cycle whose current match (nonzero id) is
absent from the fresh pending list, when that list is non-empty the
displayed dropdown list becomes the retained completed entry — the
previously held one, or the fresh copy of the vanished current match —
with its COMPLETED marker, followed by the fresh list sorted ascending
by id; when the poll returns the empty list, `auto_update_matches`
leaves the displayed list unchanged, and the retained-entry-only
display arises only from the explicit rebuild path
(`update_match_dropdown` with an empty list), which shows exactly the
retained completed entry with its marker. -/
theorem c4_display_list (r : FetchResult MatchesPayload) (s : CState)
    (cm : Match)
    (hct : optNatTruthy s.current_tournament_id = true)
    (hcm : s.current_match = some cm)
    (hid : cm.id ≠ 0)
    (habs : ∀ m ∈ (load_matches_data r s).matches_data, m.id ≠ cm.id) :
    ((load_matches_data r s).matches_data ≠ [] →
      (auto_update_matches true r s).auto_items =
        { text := matchText s.robots_data
            (s.retained_completed_match.getD cm) ++ " (COMPLETED)",
          mdata := some (s.retained_completed_match.getD cm) } ::
          (sortById (load_matches_data r s).matches_data).map (fun m =>
            { text := matchText s.robots_data m, mdata := some m })) ∧
    ((load_matches_data r s).matches_data = [] →
      (auto_update_matches true r s).auto_items = s.auto_items) ∧
    (∀ (s' : CState) (q : Match), s'.retained_completed_match = some q →
      (update_match_dropdown [] s').auto_items =
        [{ text := matchText s'.robots_data q ++ " (COMPLETED)",
           mdata := some q }]) := by
  have hproj := load_matches_data_proj r s
  have hred : auto_update_matches true r s =
      autoRebuildStep (currentTextAuto s.auto_items s.auto_index)
        (autoRetentionStep s.current_match (load_matches_data r s)) := by
    unfold auto_update_matches
    rw [if_neg (by decide), if_neg (by simp [hct])]
  refine ⟨?_, ?_, ?_⟩
  · intro hne
    rw [hred]
    cases hr : s.retained_completed_match with
    | none =>
      have hset : autoRetentionStep s.current_match (load_matches_data r s) =
          { load_matches_data r s with
              retained_completed_match := some cm } := by
        rw [hcm]
        exact autoRetentionStep_sets cm _ hid habs (hproj.1.trans hr)
      rw [hset]
      have h := autoRebuildStep_items_nonempty
        (currentTextAuto s.auto_items s.auto_index)
        { load_matches_data r s with retained_completed_match := some cm }
        cm rfl hne
      rw [h]
      rw [show ({ load_matches_data r s with
          retained_completed_match := some cm } : CState).robots_data =
        s.robots_data from hproj.2.2.2.2.1]
      rfl
    | some q =>
      have hkeep : autoRetentionStep s.current_match (load_matches_data r s) =
          load_matches_data r s :=
        autoRetentionStep_keeps s.current_match _ q (hproj.1.trans hr)
      rw [hkeep]
      have h := autoRebuildStep_items_nonempty
        (currentTextAuto s.auto_items s.auto_index)
        (load_matches_data r s) q (hproj.1.trans hr) hne
      rw [h]
      rw [hproj.2.2.2.2.1]
      rfl
  · intro he
    rw [hred]
    have hmd :
        (autoRetentionStep s.current_match
          (load_matches_data r s)).matches_data = [] :=
      (autoRetentionStep_proj s.current_match _).1.trans he
    rw [autoRebuildStep_empty _ _ hmd]
    exact (autoRetentionStep_proj s.current_match _).2.1.trans hproj.2.2.1
  · intro s' q hq
    exact update_match_dropdown_empty_retained s' q hq

/-- Claim C4, witness: with current match 7 and fresh list [match 8],
the display list is the retained copy of match 7 with its COMPLETED
marker followed by match 8; with a fresh empty list on the explicit
rebuild path, the display is exactly the retained entry for match 5. -/
theorem c4_witness :
    (auto_update_matches true
        (.ok { success := true, «matches» := [sampleM8] })
        baseState).auto_items =
      [{ text := "A vs B (COMPLETED)", mdata := some sampleM7 },
       { text := "C vs B", mdata := some sampleM8 }] ∧
    (update_match_dropdown [] retainedState).auto_items =
      [{ text := "A vs B (COMPLETED)", mdata := some sampleM5 }] := by
  have h := c4_display_list
    (.ok { success := true, «matches» := [sampleM8] }) baseState sampleM7
    rfl rfl (by decide) (by decide)
  constructor
  · rw [h.1 (by decide)]
    rfl
  · rw [h.2.2 retainedState sampleM5 rfl]
    rfl

end StreamControl
